import Mathlib

/-!
# Verification of the russimp-sys build pipeline (`src/build.rs`)

A shallow embedding of the build script `build.rs` of the `russimp-sys`
repository, together with theorems settling the specification claims about
it.  Cargo feature flags and the target OS are compile-time inputs of the
script (`cfg!` / feature tests), so they appear here as explicit parameters.
Filesystem and network effects are modelled by explicit state passing and by
effect traces; fallible steps return `Except`.
-/

namespace Russimp

/-- The compile-time target operating system, as tested by `cfg!(target_os = ...)`
in `build.rs`.  `other` stands for any OS that is none of the three tested. -/
inductive TargetOS
  | linux
  | macos
  | windows
  | other
deriving DecidableEq, Repr, Fintype

/-- The cargo feature flags read by `build.rs` via `cfg!(feature = ...)`. -/
structure Features where
  staticLink : Bool
  nozlib : Bool
  buildAssimp : Bool
  prebuilt : Bool
deriving DecidableEq, Repr, Fintype

/-- `static_lib()` from build.rs: `"static"` when the `static-link` feature is
set, `"dylib"` otherwise. -/
def static_lib (f : Features) : String :=
  if f.staticLink then "static" else "dylib"

/-- `build_zlib()` from build.rs: true unless the `nozlib` feature is set. -/
def build_zlib (f : Features) : Bool :=
  !f.nozlib

/-- `build_assimp()` from build.rs: true when the `build-assimp` feature is set. -/
def build_assimp (f : Features) : Bool :=
  f.buildAssimp

/-- `struct Library(&'static str, &'static str)` from build.rs: a library name
paired with its link kind string (`"static"` or `"dylib"`). -/
structure Library where
  name : String
  kind : String
deriving DecidableEq, Repr

/-- `lib_names()` from build.rs: the ordered list of `cargo:rustc-link-lib`
pairs, as a function of the target OS and the feature flags. -/
def lib_names (os : TargetOS) (f : Features) : List Library :=
  let names : List Library := [⟨"assimp", static_lib f⟩]
  let names := names ++
    (if build_assimp f && build_zlib f then
      [⟨"zlibstatic", "static"⟩]
    else
      if os = TargetOS.windows then
        [⟨"zlibstatic", "dylib"⟩]
      else
        [⟨"z", "dylib"⟩])
  let names := names ++ (if os = TargetOS.linux then [⟨"stdc++", "dylib"⟩] else [])
  let names := names ++ (if os = TargetOS.macos then [⟨"c++", "dylib"⟩] else [])
  names

/-- The provisioners that `main()` can dispatch to. -/
inductive Provisioner
  | sourceBuild
  | prebuiltPkg
deriving DecidableEq, Repr, Fintype

/-- The dispatch in `main()` of build.rs: `if build_assimp() { build_from_source() }
else if cfg!(feature = "prebuilt") { link_from_package() }`.  The returned list
is the sequence of provisioners that execute in the run. -/
def main_dispatch (f : Features) : List Provisioner :=
  if build_assimp f then
    [Provisioner.sourceBuild]
  else if f.prebuilt then
    [Provisioner.prebuiltPkg]
  else
    []

end Russimp

namespace Russimp

/-!
## Binding Bridge (`main()` lines around `config.h`)

`main()` checks whether `config.h` exists, synthesizes an empty placeholder
when it does not, runs `bindgen ... .generate().unwrap()`, and removes the
placeholder only after generation succeeded; a generation failure panics the
process (`unwrap`), so later statements never run.  The state is the content
of `config.h` (`none` = the file is absent). -/

/-- The `config.h` handling of `main()` in build.rs: given the initial
content of `config.h` (`none` when absent) and whether binding generation
succeeds, return the final content.  `Except.error` is the state at the point
the process panics (generation failure aborts before the cleanup). -/
def binding_bridge (config0 : Option String) (genOk : Bool) :
    Except (Option String) (Option String) :=
  let config_exists := config0.isSome
  let config1 := if !config_exists then some "" else config0
  if !genOk then
    Except.error config1
  else
    let config2 := if !config_exists then none else config1
    Except.ok config2

/-- The content of `config.h` once the run is over, whether it ended by
returning or by panicking. -/
def bridgeFinal (r : Except (Option String) (Option String)) : Option String :=
  match r with
  | Except.error s => s
  | Except.ok s => s

end Russimp

namespace Russimp

/-!
## Source Tree Provisioner (`ensure_submodules`)

`ensure_submodules` is modelled as a function from the initial filesystem
state and an injection of step outcomes to the pair of the effect trace and
the `Result`.  `?`-propagated errors return early, keeping the trace of the
effects performed so far. -/

/-- A filesystem or network side effect performed by `ensure_submodules`,
with its path or URL. -/
inductive FsEffect
  | removeDirAll (p : String)
  | netFetch (url : String)
  | writeFile (p : String)
  | extractZip (p : String)
  | rename (src dst : String)
  | removeFile (p : String)
deriving DecidableEq, Repr

/-- The parts of the filesystem state that `ensure_submodules` inspects:
whether `assimp/CMakeLists.txt` exists at entry, whether the stale `assimp`
directory exists, whether the extracted archive produces an `assimp-master`
directory, and whether `assimp/CMakeLists.txt` exists at the final re-check
(determined by the archive contents and the rename). -/
structure SubWorld where
  markerExists : Bool
  assimpDirExists : Bool
  extractedDirExists : Bool
  markerAfterRename : Bool
deriving DecidableEq, Repr

/-- Outcome injection for each fallible step of `ensure_submodules`: `true`
means the step fails (its `?` or builder error fires). -/
structure SubFail where
  removeFails : Bool
  clientFails : Bool
  sendFails : Bool
  writeFails : Bool
  openFails : Bool
  zipFails : Bool
  extractFails : Bool
  renameFails : Bool
deriving DecidableEq, Repr

/-- The fixed source snapshot URL of build.rs. -/
def zip_url : String :=
  "https://" ++ "github.com/assimp/assimp/archive/refs/heads/master.zip"

/-- The error built at the final marker re-check of `ensure_submodules`. -/
def marker_missing_error : String :=
  "CMakeLists.txt not found after extracting assimp"

/-- `ensure_submodules()` from build.rs as an effect-trace function.  If the
marker `assimp/CMakeLists.txt` exists the function returns at once; otherwise
it removes a stale `assimp` directory, downloads `master.zip` with a
300-second-timeout client, writes it to `assimp.zip`, extracts the zip,
renames `assimp-master` to `assimp` when present, removes `assimp.zip`
(best-effort), and finally re-checks the marker.  Each failing step returns
early with the trace accumulated so far. -/
def ensure_submodules (w : SubWorld) (fl : SubFail) :
    List FsEffect × Except String String :=
  if w.markerExists then
    ([], Except.ok "assimp")
  else
    let tr0 : List FsEffect :=
      if w.assimpDirExists then [FsEffect.removeDirAll "assimp"] else []
    if w.assimpDirExists && fl.removeFails then
      (tr0, Except.error "remove_dir_all failed")
    else if fl.clientFails then
      (tr0, Except.error "building the http client failed")
    else
      let tr1 := tr0 ++ [FsEffect.netFetch zip_url]
      if fl.sendFails then
        (tr1, Except.error "network request failed")
      else
        let tr2 := tr1 ++ [FsEffect.writeFile "assimp.zip"]
        if fl.writeFails then
          (tr2, Except.error "writing assimp.zip failed")
        else if fl.openFails then
          (tr2, Except.error "opening assimp.zip failed")
        else if fl.zipFails then
          (tr2, Except.error "reading the zip archive failed")
        else
          let tr3 := tr2 ++ [FsEffect.extractZip "assimp.zip"]
          if fl.extractFails then
            (tr3, Except.error "extracting an entry failed")
          else
            let tr4 := tr3 ++
              (if w.extractedDirExists then
                [FsEffect.rename "assimp-master" "assimp"] else [])
            if w.extractedDirExists && fl.renameFails then
              (tr4, Except.error "rename failed")
            else
              let tr5 := tr4 ++ [FsEffect.removeFile "assimp.zip"]
              if !w.markerAfterRename then
                (tr5, Except.error marker_missing_error)
              else
                (tr5, Except.ok "assimp")

end Russimp

namespace Russimp

/-!
## Fatal error surfaced by `build_from_source`

`build_from_source` panics with a fixed message when `ensure_submodules`
fails; the message interpolates the original error with `{}`.  The message is
embedded piecewise so the decomposition around the interpolated cause is by
construction. -/

/-- The opening lines of the panic message of `build_from_source`. -/
def fatal_intro : String :=
  "\nFailed to fetch the assimp source, specifically \"https://" ++
  "github.com/assimp/assimp\". \n\nThis create requires the assimp git " ++
  "repository source in order to work (duh), so here are your options.\nEither:\n"

/-- Remediation option 1 of the panic message: use the prebuilt feature. -/
def fatal_option1 : String :=
  "1. Use the \x27prebuilt\x27 feature. This will use a prebuilt dll from " ++
  "the russimp-sys repository releases. \n"

/-- Remediation option 2 of the panic message: install assimp system-wide. -/
def fatal_option2 : String :=
  "2. Download assimp system-wide and don\x27t use any features " ++
  "(as the build script will fetch for you).\n"

/-- Remediation option 3 of the panic message: check the network. -/
def fatal_option3 : String :=
  "3. Make sure your network works because your wifi might be borked. \n"

/-- The closing lines of the panic message. -/
def fatal_tail : String := "\n\nSorry :(\n"

/-- The full panic message of `build_from_source` as a function of the
original error `e` interpolated at `{}`. -/
def build_from_source_fatal (e : String) : String :=
  fatal_intro ++ fatal_option1 ++ fatal_option2 ++ fatal_option3 ++
    "\nSpecific error message: " ++ e ++ fatal_tail

end Russimp

namespace Russimp

/-!
## Network requests

The two downloads of build.rs: the source snapshot in `ensure_submodules`
uses a `reqwest` client built with a 300-second timeout; the prebuilt release
archive in `link_from_package` uses `reqwest::blocking::get`, i.e. the default
blocking client, whose documented default timeout is 30 seconds.  Neither
call site retries; both propagate errors (`?` resp. `unwrap`). -/

/-- One network request as configured at its call site: URL, the configured
timeout in seconds (`none` when the client configures no timeout), and the
number of automatic retries. -/
structure HttpRequest where
  url : String
  timeout_secs : Option Nat
  retries : Nat
deriving DecidableEq, Repr

/-- The source snapshot request of `ensure_submodules`: `zip_url` fetched by a
client built with `.timeout(Duration::from_secs(300))`, no retry. -/
def snapshot_request : HttpRequest :=
  { url := zip_url, timeout_secs := some 300, retries := 0 }

/-- The release download URL of `link_from_package`, interpolating the crate
version and the archive name. -/
def prebuilt_dl_link (crate_version archive_name : String) : String :=
  "https://" ++ ("github.com/jkvargas/russimp-sys/releases/download/v" ++
    (crate_version ++ ("/" ++ archive_name)))

/-- The prebuilt archive request of `link_from_package`:
`reqwest::blocking::get(dl_link)` runs on the default blocking client, whose
timeout the reqwest documentation gives as 30 seconds by default; no retry. -/
def prebuilt_request (crate_version archive_name : String) : HttpRequest :=
  { url := prebuilt_dl_link crate_version archive_name,
    timeout_secs := some 30, retries := 0 }

end Russimp

namespace Russimp

/-!
## Prebuilt Archive Provisioner (`link_from_package`)

The override branch of `link_from_package` tests
`option_env!("RUSSIMP_PACKAGE_DIR").is_some()` — a value baked in when the
build script itself was compiled — but reads the directory it then uses with
`env::var("RUSSIMP_PACKAGE_DIR").unwrap()`, a runtime read that panics when
the variable is absent.  Without the override the archive directory is the
runtime `OUT_DIR`, followed by the cache-or-fetch logic. -/

/-- The archive source directory chosen by `link_from_package`, as a function
of the compile-time value of `RUSSIMP_PACKAGE_DIR` (`option_env!`) and the
runtime environment (`env::var`).  `Except.error` is a panic of the build
script. -/
def link_from_package_src_dir (compilePkgDir : Option String)
    (runtimeEnv : String → Option String) : Except String String :=
  if compilePkgDir.isSome then
    match runtimeEnv "RUSSIMP_PACKAGE_DIR" with
    | some d => Except.ok d
    | none => Except.error "panicked: RUSSIMP_PACKAGE_DIR is not set at run time"
  else
    match runtimeEnv "OUT_DIR" with
    | some d => Except.ok d
    | none => Except.error "panicked: OUT_DIR is not set at run time"

end Russimp

namespace Russimp

/-!
## Archive extraction safety

Paths are modelled as lists of components.  The zip extraction loop of
`ensure_submodules` filters each entry through the zip crate's
`enclosed_name`, skipping (`continue`) entries it rejects; the tar unpack of
`link_from_package` delegates to the tar crate's `Archive::unpack`.  The two
sanitizers are modelled from the crates' documented contracts: a name is
rejected when it is absolute or contains a parent-directory component, and
current-directory components do not contribute to the resolved path. -/

/-- An archive entry: whether its stored name is absolute, its name split
into components, and whether it is a directory entry.  Directory entries and
file entries are written at the same resolved path, so the flag does not
change the destination. -/
structure ArchiveEntry where
  isAbsolute : Bool
  components : List String
  isDir : Bool
deriving DecidableEq, Repr

/-- The zip crate's `enclosed_name` as documented: `none` (the loop's
`continue`) for an absolute name or one containing a `..` component;
otherwise the name with `.` components dropped. -/
def enclosed_name (e : ArchiveEntry) : Option (List String) :=
  if e.isAbsolute then none
  else if ".." ∈ e.components then none
  else some (e.components.filter (fun c => c ≠ "."))

/-- The destination paths written by the zip extraction loop of
`ensure_submodules`: entries whose `enclosed_name` is `none` are skipped, the
rest are joined onto `out_dir` (`out_dir.join(path)`). -/
def zip_write_targets (out_dir : List String) (entries : List ArchiveEntry) :
    List (List String) :=
  entries.filterMap (fun e =>
    match enclosed_name e with
    | some p => some (out_dir ++ p)
    | none => none)

/-- The destination paths written by `Archive::unpack` in `link_from_package`,
per the tar crate's documented contract: entries whose path would escape the
destination directory are not unpacked. -/
def tar_unpack_targets (dest_dir : List String) (entries : List ArchiveEntry) :
    List (List String) :=
  entries.filterMap (fun e =>
    if e.isAbsolute then none
    else if ".." ∈ e.components then none
    else some (dest_dir ++ e.components.filter (fun c => c ≠ ".")))

/-- A path stays inside `root`: it extends `root` and the remainder contains
no parent-directory component, so it cannot resolve outside `root`. -/
def withinRoot (root p : List String) : Prop :=
  root <+: p ∧ ".." ∉ p.drop root.length

end Russimp

namespace Russimp

/-- C1: the three platform-matrix rows of the spec, evaluated on `lib_names`.
Linux, build-from-source with embedded zlib, static link gives
assimp/zlibstatic static then stdc++ dynamic; Windows with system compression
(`nozlib`) under dynamic link gives assimp and zlibstatic dynamic (for any
setting of the remaining flags); macOS, build-from-source with embedded zlib,
static link gives assimp/zlibstatic static then c++ dynamic. -/
theorem lib_names_platform_matrix :
    (∀ pb : Bool,
      lib_names TargetOS.linux ⟨true, false, true, pb⟩ =
        [⟨"assimp", "static"⟩, ⟨"zlibstatic", "static"⟩, ⟨"stdc++", "dylib"⟩]) ∧
    (∀ ba pb : Bool,
      lib_names TargetOS.windows ⟨false, true, ba, pb⟩ =
        [⟨"assimp", "dylib"⟩, ⟨"zlibstatic", "dylib"⟩]) ∧
    (∀ pb : Bool,
      lib_names TargetOS.macos ⟨true, false, true, pb⟩ =
        [⟨"assimp", "static"⟩, ⟨"zlibstatic", "static"⟩, ⟨"c++", "dylib"⟩]) := by
  refine ⟨?_, ?_, ?_⟩ <;> decide

/-- Witness for C1 at the Linux row with the prebuilt flag unset. -/
theorem lib_names_platform_matrix_witness :
    lib_names TargetOS.linux ⟨true, false, true, false⟩ =
      [⟨"assimp", "static"⟩, ⟨"zlibstatic", "static"⟩, ⟨"stdc++", "dylib"⟩] :=
  lib_names_platform_matrix.1 false

/-- C2: for every feature configuration at most one provisioner executes; when
both the `build-assimp` and `prebuilt` features are set only the source-build
provisioner runs, and when neither is set no provisioner runs. -/
theorem main_dispatch_exclusive :
    ∀ f : Features,
      (main_dispatch f).length ≤ 1 ∧
      (f.buildAssimp = true → f.prebuilt = true →
        main_dispatch f = [Provisioner.sourceBuild]) ∧
      (f.buildAssimp = false → f.prebuilt = false → main_dispatch f = []) := by
  decide

/-- Witness for C2 at a concrete configuration with both flags set. -/
theorem main_dispatch_exclusive_witness :
    main_dispatch ⟨true, false, true, true⟩ = [Provisioner.sourceBuild] :=
  (main_dispatch_exclusive ⟨true, false, true, true⟩).2.1 rfl rfl

/-- C7: `lib_names` is a pure function of (platform, flags); its name list has
no duplicates; the primary library `assimp` is always first; and on Linux
(resp. macOS) the C++ runtime entry `stdc++` (resp. `c++`) is last and linked
dynamically. -/
theorem lib_names_invariants :
    ∀ (os : TargetOS) (f : Features),
      ((lib_names os f).map Library.name).Nodup ∧
      (lib_names os f).head? = some ⟨"assimp", static_lib f⟩ ∧
      (os = TargetOS.linux →
        (lib_names os f).getLast? = some ⟨"stdc++", "dylib"⟩) ∧
      (os = TargetOS.macos →
        (lib_names os f).getLast? = some ⟨"c++", "dylib"⟩) := by
  decide

/-- Witness for C7 on Linux with all features enabled. -/
theorem lib_names_invariants_witness :
    ((lib_names TargetOS.linux ⟨true, true, true, true⟩).map Library.name).Nodup ∧
    (lib_names TargetOS.linux ⟨true, true, true, true⟩).getLast? =
      some ⟨"stdc++", "dylib"⟩ :=
  ⟨(lib_names_invariants TargetOS.linux ⟨true, true, true, true⟩).1,
   (lib_names_invariants TargetOS.linux ⟨true, true, true, true⟩).2.2.1 rfl⟩

end Russimp

namespace Russimp

/-- C3 counterexample: when `config.h` is absent before the run and binding
generation fails, the synthesized empty placeholder is still present after the
run — the claimed cleanup on every exit path does not hold. -/
theorem binding_bridge_fail_leaves_placeholder :
    ¬ bridgeFinal (binding_bridge none false) = none := by
  decide

/-- C3 amended: a pre-existing `config.h` is never modified (on success or
failure), and when binding generation succeeds a placeholder synthesized for
an initially absent `config.h` is removed again. -/
theorem binding_bridge_cleanup :
    ∀ (config0 : Option String) (genOk : Bool),
      (config0.isSome → bridgeFinal (binding_bridge config0 genOk) = config0) ∧
      (genOk = true → config0 = none →
        bridgeFinal (binding_bridge config0 genOk) = none) := by
  intro config0 genOk
  cases config0 <;> cases genOk <;> simp [binding_bridge, bridgeFinal]

/-- Witness for C3 amended: a pre-existing header survives a failing run, and
an absent one is absent again after a successful run. -/
theorem binding_bridge_cleanup_witness :
    bridgeFinal (binding_bridge (some "x") false) = some "x" ∧
    bridgeFinal (binding_bridge none true) = none :=
  ⟨(binding_bridge_cleanup (some "x") false).1 rfl,
   (binding_bridge_cleanup none true).2 rfl rfl⟩

end Russimp

namespace Russimp

/-- C5: when the marker file `assimp/CMakeLists.txt` already exists,
`ensure_submodules` returns the `assimp` directory immediately with an empty
effect trace — no network fetch, no directory removal, no extraction. -/
theorem ensure_submodules_idempotent :
    ∀ (w : SubWorld) (fl : SubFail), w.markerExists = true →
      ensure_submodules w fl = ([], Except.ok "assimp") := by
  intro w fl h
  simp [ensure_submodules, h]

/-- Witness for C5 at a concrete world with the marker present. -/
theorem ensure_submodules_idempotent_witness :
    ensure_submodules ⟨true, true, true, true⟩ ⟨false, false, false, false,
      false, false, false, false⟩ = ([], Except.ok "assimp") :=
  ensure_submodules_idempotent _ _ rfl

/-- C6 counterexample: in a run that downloads the snapshot archive and then
fails during extraction, the temporary `assimp.zip` is written but never
removed — the cleanup is not on every exit path. -/
theorem ensure_submodules_zip_left_behind :
    (FsEffect.writeFile "assimp.zip") ∈
      (ensure_submodules ⟨false, false, true, true⟩
        ⟨false, false, false, false, false, false, true, false⟩).1 ∧
    (FsEffect.removeFile "assimp.zip") ∉
      (ensure_submodules ⟨false, false, true, true⟩
        ⟨false, false, false, false, false, false, true, false⟩).1 ∧
    (ensure_submodules ⟨false, false, true, true⟩
      ⟨false, false, false, false, false, false, true, false⟩).2 =
        Except.error "extracting an entry failed" := by
  refine ⟨by decide, by decide, rfl⟩

/-- C6 amended: whenever the download, write, extraction and rename steps all
succeed, `ensure_submodules` removes the temporary `assimp.zip` — in the
successful run and also when the final marker re-check fails; only a failure
of an earlier step can leave the archive behind. -/
theorem ensure_submodules_zip_cleanup :
    ∀ (w : SubWorld) (fl : SubFail),
      w.markerExists = false →
      (w.assimpDirExists = true → fl.removeFails = false) →
      fl.clientFails = false → fl.sendFails = false →
      fl.writeFails = false → fl.openFails = false → fl.zipFails = false →
      fl.extractFails = false →
      (w.extractedDirExists = true → fl.renameFails = false) →
      (FsEffect.removeFile "assimp.zip") ∈ (ensure_submodules w fl).1 := by
  rintro ⟨m, a, e, r⟩ ⟨f1, f2, f3, f4, f5, f6, f7, f8⟩ h1 h2 h3 h4 h5 h6 h7 h8 h9
  cases a <;> cases e <;> cases r <;> cases f1 <;> cases f8 <;>
    simp_all [ensure_submodules]

/-- Witness for C6 amended: a run whose final marker check fails still removes
the temporary archive. -/
theorem ensure_submodules_zip_cleanup_witness :
    (FsEffect.removeFile "assimp.zip") ∈
      (ensure_submodules ⟨false, false, true, false⟩
        ⟨false, false, false, false, false, false, false, false⟩).1 :=
  ensure_submodules_zip_cleanup ⟨false, false, true, false⟩
    ⟨false, false, false, false, false, false, false, false⟩
    rfl (fun h => by cases h) rfl rfl rfl rfl rfl rfl (fun _ => rfl)

end Russimp

namespace Russimp

/-- Associativity of string append, used to normalize the decompositions of
the fatal messages. -/
theorem string_append_assoc (a b c : String) : a ++ b ++ c = a ++ (b ++ c) := by
  rcases a with ⟨a⟩
  rcases b with ⟨b⟩
  rcases c with ⟨c⟩
  show String.append (String.append ⟨a⟩ ⟨b⟩) ⟨c⟩ =
    String.append ⟨a⟩ (String.append ⟨b⟩ ⟨c⟩)
  simp [String.append]

/-- Splitting a middle factor of a string concatenation: a decomposition of
`q` lifts to a decomposition of `p ++ q ++ r`. -/
theorem mid_split (p q r x a b : String) (h : q = a ++ x ++ b) :
    p ++ q ++ r = (p ++ a) ++ x ++ (b ++ r) := by
  subst h
  simp [string_append_assoc]

/-- C8: if after acquisition and extraction the marker is still absent,
`ensure_submodules` fails with the error that names the expected descriptor
`CMakeLists.txt`; and the fatal message of `build_from_source` contains the
original cause verbatim together with the three remediations (alternate
prebuilt strategy, system-wide vendoring, network check). -/
theorem acquisition_error_reporting :
    (∀ (w : SubWorld) (fl : SubFail),
      w.markerExists = false →
      (w.assimpDirExists = true → fl.removeFails = false) →
      fl.clientFails = false → fl.sendFails = false →
      fl.writeFails = false → fl.openFails = false → fl.zipFails = false →
      fl.extractFails = false →
      (w.extractedDirExists = true → fl.renameFails = false) →
      w.markerAfterRename = false →
      (ensure_submodules w fl).2 = Except.error marker_missing_error) ∧
    (∃ a b : String, marker_missing_error = a ++ "CMakeLists.txt" ++ b) ∧
    (∀ e : String,
      (∃ a b : String, build_from_source_fatal e = a ++ e ++ b) ∧
      (∃ a b : String, build_from_source_fatal e = a ++ "prebuilt" ++ b) ∧
      (∃ a b : String, build_from_source_fatal e = a ++ "network" ++ b) ∧
      (∃ a b : String,
        build_from_source_fatal e = a ++ "Download assimp system-wide" ++ b)) := by
  refine ⟨?_, ⟨"", " not found after extracting assimp", by decide⟩, ?_⟩
  · rintro ⟨m, a, e, r⟩ ⟨f1, f2, f3, f4, f5, f6, f7, f8⟩ h1 h2 h3 h4 h5 h6 h7 h8 h9 h10
    cases a <;> cases e <;> cases f1 <;> cases f8 <;>
      simp_all [ensure_submodules]
  · intro e
    have hfull1 : build_from_source_fatal e =
        fatal_intro ++ fatal_option1 ++ (fatal_option2 ++ (fatal_option3 ++
          ("\nSpecific error message: " ++ (e ++ fatal_tail)))) := by
      simp [build_from_source_fatal, string_append_assoc]
    have hfull2 : build_from_source_fatal e =
        (fatal_intro ++ fatal_option1) ++ fatal_option2 ++ (fatal_option3 ++
          ("\nSpecific error message: " ++ (e ++ fatal_tail))) := by
      simp [build_from_source_fatal, string_append_assoc]
    have hfull3 : build_from_source_fatal e =
        (fatal_intro ++ fatal_option1 ++ fatal_option2) ++ fatal_option3 ++
          ("\nSpecific error message: " ++ (e ++ fatal_tail)) := by
      simp [build_from_source_fatal, string_append_assoc]
    refine ⟨⟨fatal_intro ++ fatal_option1 ++ fatal_option2 ++ fatal_option3 ++
        "\nSpecific error message: ", fatal_tail, rfl⟩, ?_, ?_, ?_⟩
    · exact ⟨fatal_intro ++ "1. Use the \x27", _,
        hfull1.trans (mid_split _ _ _ "prebuilt" _
          ("\x27 feature. This will use a prebuilt dll from the russimp-sys " ++
           "repository releases. \n") (by decide))⟩
    · exact ⟨(fatal_intro ++ fatal_option1 ++ fatal_option2) ++
        "3. Make sure your ", _,
        hfull3.trans (mid_split _ _ _ "network" _
          (" works because your wifi might be borked. \n") (by decide))⟩
    · exact ⟨(fatal_intro ++ fatal_option1) ++ "2. ", _,
        hfull2.trans (mid_split _ _ _ "Download assimp system-wide" _
          (" and don\x27t use any features (as the build script will fetch " ++
           "for you).\n") (by decide))⟩

/-- Witness for C8: the marker-check failure at a concrete world, and the
fatal message decompositions at a concrete cause. -/
theorem acquisition_error_reporting_witness :
    (ensure_submodules ⟨false, false, true, false⟩
      ⟨false, false, false, false, false, false, false, false⟩).2 =
        Except.error marker_missing_error ∧
    (∃ a b : String,
      build_from_source_fatal "timed out" = a ++ "timed out" ++ b) :=
  ⟨acquisition_error_reporting.1 ⟨false, false, true, false⟩
      ⟨false, false, false, false, false, false, false, false⟩
      rfl (fun h => nomatch h) rfl rfl rfl rfl rfl rfl (fun _ => rfl) rfl,
   (acquisition_error_reporting.2.2 "timed out").1⟩

end Russimp

namespace Russimp

/-- C9 counterexample: the prebuilt release-archive fetch is issued with the
blocking default client's 30-second timeout, which is below any multi-minute
(at least two-minute) ceiling, so not every network request of the pipeline
carries a multi-minute timeout. -/
theorem prebuilt_request_timeout_below_two_minutes :
    (prebuilt_request "2.0.2"
      "russimp-2.0.2-x86_64-unknown-linux-gnu-static.tar.gz").timeout_secs
      = some 30 ∧
    30 < 120 := by
  exact ⟨rfl, by decide⟩

/-- C9 amended: both requests are HTTPS with a bounded timeout, no automatic
retry, and a transport error fatal to the run, but only the source-snapshot
fetch carries a multi-minute (300-second) timeout — the prebuilt fetch runs
under the blocking default client's 30-second timeout. -/
theorem network_request_discipline :
    (∃ r, snapshot_request.url = "https://" ++ r) ∧
    snapshot_request.timeout_secs = some 300 ∧
    snapshot_request.retries = 0 ∧
    (∀ v n : String,
      (∃ r, (prebuilt_request v n).url = "https://" ++ r) ∧
      (prebuilt_request v n).timeout_secs = some 30 ∧
      (prebuilt_request v n).retries = 0) ∧
    (∀ (w : SubWorld) (fl : SubFail),
      w.markerExists = false → fl.sendFails = true →
      ∃ msg, (ensure_submodules w fl).2 = Except.error msg) := by
  refine ⟨⟨_, rfl⟩, rfl, rfl, fun v n => ⟨⟨_, rfl⟩, rfl, rfl⟩, ?_⟩
  rintro ⟨m, a, e, r⟩ ⟨f1, f2, f3, f4, f5, f6, f7, f8⟩ h1 h2
  cases a <;> cases f1 <;> cases f2 <;> simp_all [ensure_submodules]

/-- Witness for C9 amended: a send failure with the marker absent makes the
provisioner fail. -/
theorem network_request_discipline_witness :
    ∃ msg, (ensure_submodules ⟨false, false, false, false⟩
      ⟨false, false, true, false, false, false, false, false⟩).2 =
        Except.error msg :=
  network_request_discipline.2.2.2.2 ⟨false, false, false, false⟩
    ⟨false, false, true, false, false, false, false, false⟩ rfl rfl

end Russimp

namespace Russimp

/-- C10: whether the override directory is used depends only on the
compile-time presence of `RUSSIMP_PACKAGE_DIR`, while the path used is the
runtime value: with the variable baked in at compile time but absent at run
time the provisioner aborts instead of falling back to the cache-or-fetch
directory, and when it is present at run time the directory used is the
runtime value, whatever was baked in at compile time. -/
theorem link_from_package_env_split :
    ∀ (ct : Option String) (renv : String → Option String),
      (ct.isSome = true → renv "RUSSIMP_PACKAGE_DIR" = none →
        ∃ msg, link_from_package_src_dir ct renv = Except.error msg) ∧
      (∀ d, ct.isSome = true → renv "RUSSIMP_PACKAGE_DIR" = some d →
        link_from_package_src_dir ct renv = Except.ok d) ∧
      (∀ d, ct = none → renv "OUT_DIR" = some d →
        link_from_package_src_dir ct renv = Except.ok d) := by
  intro ct renv
  refine ⟨fun h1 h2 => ?_, fun d h1 h2 => ?_, fun d h1 h2 => ?_⟩
  · exact ⟨"panicked: RUSSIMP_PACKAGE_DIR is not set at run time",
      by simp [link_from_package_src_dir, h1, h2]⟩
  · simp [link_from_package_src_dir, h1, h2]
  · simp [link_from_package_src_dir, h1, h2]

/-- Witness for C10: compile-time value `/pkg` with an empty runtime
environment aborts; a runtime value `/rt` is the directory used even though
the compile-time value differs. -/
theorem link_from_package_env_split_witness :
    (∃ msg, link_from_package_src_dir (some "/pkg") (fun _ => none) =
      Except.error msg) ∧
    link_from_package_src_dir (some "/pkg")
      (fun _ => some "/rt") = Except.ok "/rt" :=
  ⟨(link_from_package_env_split (some "/pkg") (fun _ => none)).1 rfl rfl,
   (link_from_package_env_split (some "/pkg") (fun _ => some "/rt")).2.1
     "/rt" rfl rfl⟩

end Russimp

namespace Russimp

/-- C4: every path actually written by the zip extraction of the source
snapshot and by the tar extraction of the prebuilt archive lies inside the
target cache directory — entries whose resolved path would escape it are
refused (skipped) by both extractors. -/
theorem extraction_refuses_traversal :
    ∀ (root : List String) (entries : List ArchiveEntry) (t : List String),
      (t ∈ zip_write_targets root entries → withinRoot root t) ∧
      (t ∈ tar_unpack_targets root entries → withinRoot root t) := by
  intro root entries t
  constructor
  · intro ht
    rcases List.mem_filterMap.1 ht with ⟨e, -, he⟩
    by_cases hab : e.isAbsolute = true
    · simp [enclosed_name, hab] at he
    · by_cases hdd : ".." ∈ e.components
      · simp [enclosed_name, hab, hdd] at he
      · simp [enclosed_name, hab, hdd] at he
        subst he
        refine ⟨List.prefix_append _ _, ?_⟩
        rw [List.drop_left]
        intro hm
        exact hdd (List.mem_filter.1 hm).1
  · intro ht
    rcases List.mem_filterMap.1 ht with ⟨e, -, he⟩
    by_cases hab : e.isAbsolute = true
    · simp [hab] at he
    · by_cases hdd : ".." ∈ e.components
      · simp [hab, hdd] at he
      · simp [hab, hdd] at he
        subst he
        refine ⟨List.prefix_append _ _, ?_⟩
        rw [List.drop_left]
        intro hm
        exact hdd (List.mem_filter.1 hm).1

/-- Witness for C4: a benign entry lands inside the root for both extractors
(a traversal entry in the same zip archive is skipped, so it produces no
target at all). -/
theorem extraction_refuses_traversal_witness :
    withinRoot ["out"] ["out", "a"] ∧ withinRoot ["static"] ["static", "lib"] :=
  ⟨(extraction_refuses_traversal ["out"]
      [⟨false, ["a"], false⟩, ⟨false, ["..", "x"], false⟩] ["out", "a"]).1
      (by decide),
   (extraction_refuses_traversal ["static"]
      [⟨false, ["lib"], true⟩] ["static", "lib"]).2 (by decide)⟩

end Russimp
